import Mathlib

/-!
Shallow embedding of the HSN-code classification engine: the conversation
state (src/conversation_manager.py), the query/dialogue engine
(src/query_processor.py), the in-memory graph backend (src/graph_backends.py),
the hierarchical graph builder (src/graph_builder.py) and the graph-contextual
retrieval enrichment (src/retrieval_strategies.py).

Python floats are modelled as rationals, dictionaries as records with
optional fields or association lists, and the external collaborators
(spaCy lemma sets, the vector store, the cross-encoder, the generation
backend, the indexed chroma lookup) as oracle inputs supplied in an
environment record.  Exceptions raised by external collaborators are
modelled with Except; the state returned by processQuery reflects every
mutation performed before the abort point, mirroring the in-place
mutation of the Python ConversationState.
-/

namespace HSN

/-- A retrieved-document metadata dictionary: every access in the engine
goes through dict.get with a default, so every field is optional. -/
structure Metadata where
  hsnCode : Option String := none
  chapter : Option String := none
  chapterDescription : Option String := none
  heading : Option String := none
  headingDescription : Option String := none
  subheading : Option String := none
  subheadingDescription : Option String := none
  itemDescription : Option String := none
deriving DecidableEq

/-- A retrieved document: id, text, metadata, optional score
(dict.get with default 0 in the engine) and optional graph context. -/
structure Doc where
  id : String := ""
  text : String := ""
  metadata : Metadata := {}
  score : Option Rat := none
  graphContext : Option String := none
deriving DecidableEq

/-- One entry of the top_matches list of a response dictionary. -/
structure TopMatch where
  hsnCode : Option String := none
  description : Option String := none
  fullContext : Option String := none
  retrievalScore : Option Rat := none
  graphContext : Option String := none
  metadata : Metadata := {}
deriving DecidableEq

/-- A response dictionary of the engine.  The "type" key is absent on the
two selection-error responses, hence optional. -/
structure Response where
  rtype : Option String := none
  summary : String := ""
  options : List Doc := []
  topMatches : List TopMatch := []
  confidence : Option String := none
  tradePolicy : Option String := none
deriving DecidableEq

/-- One (query, response) turn of the conversation history. -/
structure Turn where
  userQuery : String
  systemResponse : Response
deriving DecidableEq

/-- ConversationState (src/conversation_manager.py): session id, the
append-only turn history, the context dictionary (its only engine-written
key is "disambiguation_options", holding a list of documents) and the
user preferences. -/
structure ConversationState where
  sessionId : String := ""
  turnHistory : List Turn := []
  currentContext : List (String × List Doc) := []
  userPreferences : List (String × String) := [("expertise_level", "novice")]
deriving DecidableEq

/-- ConversationState.add_turn: append one (query, response) pair. -/
def addTurn (st : ConversationState) (userQuery : String) (systemResponse : Response) :
    ConversationState :=
  { st with turnHistory := st.turnHistory ++ [{ userQuery := userQuery, systemResponse := systemResponse }] }

/-- Python dict assignment: update the key in place if present, else append. -/
def setContextMap (m : List (String × List Doc)) (k : String) (v : List Doc) :
    List (String × List Doc) :=
  if m.any (fun p => p.1 == k) then m.map (fun p => if p.1 == k then (k, v) else p)
  else m ++ [(k, v)]

/-- Python dict.get: the stored value when the key is present. -/
def getContextMap (m : List (String × List Doc)) (k : String) : Option (List Doc) :=
  (m.find? (fun p => p.1 == k)).map (fun p => p.2)

/-- ConversationState.set_context. -/
def setContextS (st : ConversationState) (k : String) (v : List Doc) : ConversationState :=
  { st with currentContext := setContextMap st.currentContext k v }

/-- ConversationState.get_context. -/
def getContextS (st : ConversationState) (k : String) : Option (List Doc) :=
  getContextMap st.currentContext k

/-- ConversationState.clear_context: replace the context with an empty dict. -/
def clearContext (st : ConversationState) : ConversationState :=
  { st with currentContext := [] }

/-- Python truthiness of get_context's result: None and the empty list are
falsy, a non-empty list is truthy. -/
def ctxTruthy (o : Option (List Doc)) : Prop :=
  o.getD [] ≠ []

instance (o : Option (List Doc)) : Decidable (ctxTruthy o) := by
  unfold ctxTruthy; infer_instance

/-! Intent classification (_parse_natural_language, src/query_processor.py).
The spaCy lemma tests are external collaborators, modelled as oracle
booleans per query; the regex searches are modelled directly. -/

/-- A regex word character (ASCII model of \w): alphanumeric or underscore. -/
def isWordChar (c : Char) : Bool :=
  c.isAlphanum || c == '_'

/-- The first 8 characters of a list together with the remainder, when the
list has at least 8 elements. -/
def takeDrop8 (cs : List Char) : Option (List Char × List Char) :=
  match cs with
  | a :: b :: c :: d :: e :: f :: g :: h :: rest => some ([a, b, c, d, e, f, g, h], rest)
  | _ => none

/-- Scan for the leftmost match of the pattern of hsn_code_re, eight digits
delimited by word boundaries; prev is the character just before the current
position (none at the start of the string). -/
def hsnCodeSearchAux : Option Char → List Char → Option String
  | _, [] => none
  | prev, c :: rest =>
    match takeDrop8 (c :: rest) with
    | some (ds, after) =>
      if prev.all (fun p => !isWordChar p) && ds.all Char.isDigit &&
          after.head?.all (fun n => !isWordChar n) then
        some (String.mk ds)
      else hsnCodeSearchAux (some c) rest
    | none => hsnCodeSearchAux (some c) rest

/-- hsn_code_re.search(query): the leftmost 8-digit token delimited by word
boundaries, when one exists. -/
def hsnCodeSearch (query : String) : Option String :=
  hsnCodeSearchAux none query.toList

/-- An ASCII whitespace character as stripped by str.strip(). -/
def isPySpace (c : Char) : Bool :=
  c == ' ' || c == '\t' || c == '\n' || c == '\r' || c == '\x0b' || c == '\x0c'

/-- query.strip().isdigit(): the whitespace-stripped query is non-empty
and consists of digits only. -/
def stripIsDigit (query : String) : Bool :=
  let t := ((query.toList.dropWhile isPySpace).reverse.dropWhile isPySpace).reverse
  !t.isEmpty && t.all Char.isDigit

/-- The four intent values produced by _parse_natural_language. -/
inductive Intent where
  | directLookup
  | selection
  | summarization
  | classification
deriving DecidableEq

/-- The parsed-query dictionary: the intent, plus the hsn_code key (set for
direct_lookup) or the text key (set for the other intents). -/
structure ParsedQuery where
  intent : Intent
  hsnCode : Option String := none
  text : Option String := none
deriving DecidableEq

/-- Per-query facts about the external spaCy pipeline: whether some token
lemma of the lowercased query lies in the selection keyword set, and
whether some lies in the summary keyword set. -/
structure NlpOracle where
  hasSelectionKeyword : Bool := false
  hasSummaryKeyword : Bool := false
deriving DecidableEq

/-- _parse_natural_language: an 8-digit token yields direct_lookup; else a
selection keyword lemma or an all-digit stripped query yields selection;
else a summary keyword lemma yields summarization; else classification. -/
def parseNaturalLanguage (nlp : NlpOracle) (query : String) : ParsedQuery :=
  match hsnCodeSearch query with
  | some code => { intent := Intent.directLookup, hsnCode := some code }
  | none =>
    if nlp.hasSelectionKeyword || stripIsDigit query then
      { intent := Intent.selection, text := some query }
    else if nlp.hasSummaryKeyword then
      { intent := Intent.summarization, text := some query }
    else
      { intent := Intent.classification, text := some query }

/-! Selection parsing and the per-intent handlers. -/

/-- The value of a decimal digit list (int() applied to a digit string). -/
def digitsToNat (ds : List Char) : Nat :=
  ds.foldl (fun n c => n * 10 + (c.toNat - 48)) 0

/-- The first maximal digit run of a character list (re.findall of one or
more digits, first element), when one exists. -/
def firstDigitRun : List Char → Option (List Char)
  | [] => none
  | c :: rest =>
    if c.isDigit then some (c :: rest.takeWhile Char.isDigit)
    else firstDigitRun rest

/-- int(re.findall(one-or-more-digits, text)[0]): the numeric value of the
first digit run of the text, when one exists. -/
def firstIntToken (text : String) : Option Nat :=
  (firstDigitRun text.toList).map digitsToNat

/-- Rendering of an optional value inside a Python f-string: a missing
value prints as None. -/
def pyFormatOpt (o : Option String) : String :=
  match o with
  | some s => s
  | none => "None"

/-- _handle_disambiguation_selection: parse the first integer of the query
text; in range 1..N return the chosen option with the user-confirmed
confidence marker and clear the context; otherwise return an error
response and leave the state untouched. -/
def handleDisambiguationSelection (pq : ParsedQuery) (st : ConversationState) :
    Response × ConversationState :=
  let options := (getContextS st "disambiguation_options").getD []
  match firstIntToken (pq.text.getD "") with
  | none => ({ summary := "I\x27m sorry, I didn\x27t understand that selection." }, st)
  | some selection =>
    if 1 ≤ selection ∧ selection ≤ options.length then
      let selectedOption := options.getD (selection - 1) {}
      let hsn := selectedOption.metadata.hsnCode.getD "N/A"
      ({ rtype := some "classification_result",
         summary := "Thank you for clarifying. Based on your selection, the correct classification is HSN Code " ++ hsn ++ ".",
         topMatches := [{ hsnCode := some hsn, metadata := selectedOption.metadata }],
         confidence := some "Very High (User Confirmed)",
         tradePolicy := some "Free" }, clearContext st)
    else
      ({ summary := "That\x27s not a valid option number." }, st)

/-- _handle_direct_lookup: the indexed chroma get is an external
collaborator, modelled as a lookup oracle returning the metadata of the
stored document when every truthiness guard passes. -/
def handleDirectLookup (lookup : String → Option Metadata) (hsnCode : String) : Response :=
  match lookup hsnCode with
  | none =>
    { rtype := some "no_result",
      summary := "HSN Code " ++ hsnCode ++ " was not found in our database." }
  | some meta =>
    { rtype := some "classification_result",
      summary :=
        "**Information for HSN Code " ++ hsnCode ++ ":**\n\n" ++
        "- **Description:** " ++ meta.itemDescription.getD "N/A" ++ "\n" ++
        "- **Trade Status:** Free\n\n" ++
        "**Hierarchy:**\n" ++
        "- **Chapter (" ++ pyFormatOpt meta.chapter ++ "):** " ++ meta.chapterDescription.getD "N/A" ++ "\n" ++
        "- **Heading (" ++ pyFormatOpt meta.heading ++ "):** " ++ meta.headingDescription.getD "N/A" ++ "\n" ++
        "- **Subheading (" ++ pyFormatOpt meta.subheading ++ "):** " ++ meta.subheadingDescription.getD "N/A",
      topMatches := [{ hsnCode := some hsnCode, metadata := meta }] }

/-- _handle_summarization_query: a canned clarification prompt. -/
def handleSummarizationQuery (query : String) : Response :=
  { rtype := some "clarification_prompt",
    summary :=
      "Chapter 40 covers \x27Rubber and Articles Thereof\x27. This includes a wide range of products from raw materials to finished goods.\n\n" ++
      "To help me find the correct code, could you specify the product? For example, are you looking for:\n" ++
      "- Raw materials like **natural rubber latex**?\n" ++
      "- Intermediate products like **vulcanised rubber sheets**?\n" ++
      "- Finished articles like **rubber tyres** or **conveyor belts**?" }

/-- The disambiguation threshold of HSNQueryProcessor (0.15). -/
def disambiguationThreshold : Rat := 15 / 100

/-- The relevance threshold of HSNQueryProcessor (0.40). -/
def relevanceThreshold : Rat := 40 / 100

/-- _identify_ambiguous_cases: fewer than 2 documents is never ambiguous;
otherwise ambiguous exactly when the top-two score gap is strictly below
the disambiguation threshold, with the first three documents as options. -/
def identifyAmbiguousCases (retrievedDocs : List Doc) : Bool × List Doc :=
  if retrievedDocs.length < 2 then (false, [])
  else
    let scoreFirst := (retrievedDocs.getD 0 {}).score.getD 0
    let scoreSecond := (retrievedDocs.getD 1 {}).score.getD 0
    if scoreFirst - scoreSecond < disambiguationThreshold then (true, retrievedDocs.take 3)
    else (false, [])

/-- The text of one option block of the disambiguation prompt (1-based
index i). -/
def disambigOptionText (i : Nat) (option : Doc) : String :=
  let metadata := option.metadata
  let hsn := metadata.hsnCode.getD "N/A"
  let desc := metadata.itemDescription.getD "N/A"
  let context := option.graphContext.getD "No additional context."
  "**Option " ++ toString i ++ ": HSN Code " ++ hsn ++ "**\n" ++
  "- Description: " ++ desc ++ "\n" ++
  "- Context: This code is for products under the category of \x27" ++ context ++ "\x27.\n\n"

/-- _generate_disambiguation_prompt: the enumerated option blocks between
the fixed leading and trailing sentences, with the options attached. -/
def generateDisambiguationPrompt (options : List Doc) : Response :=
  { rtype := some "disambiguation",
    summary :=
      "I found a few possible matches. To give you the most accurate HSN code, please help me clarify:\n\n" ++
      String.join ((List.enumFrom 1 options).map (fun p => disambigOptionText p.1 p.2)) ++
      "Which option best describes your product? Please enter the option number (e.g., \x271\x27).",
    options := options }

/-- generate_structured_response (src/rag_system.py): the generated text as
summary, one top_matches entry per context document, confidence High
exactly when the list is non-empty with top score above 0.85. -/
def generateStructuredResponse (generatedText : String) (contextDocs : List Doc) : Response :=
  { summary := generatedText,
    topMatches := contextDocs.map (fun doc =>
      { hsnCode := doc.metadata.hsnCode,
        description := doc.metadata.itemDescription,
        fullContext := some doc.text,
        retrievalScore := doc.score,
        graphContext := doc.graphContext,
        metadata := doc.metadata }),
    confidence := some (if contextDocs ≠ [] ∧ (contextDocs.getD 0 {}).score.getD 0 > (85 : Rat) / 100
      then "High" else "Medium"),
    tradePolicy := some "Free" }

/-- The fixed no_result response of process_query. -/
def noResultResponse : Response :=
  { rtype := some "no_result",
    summary := "I\x27m sorry, but I couldn\x27t find any relevant HSN codes for your query in my knowledge base.",
    confidence := some "Very Low" }

/-- An exception raised by an external collaborator. -/
structure Err where
  msg : String := ""
deriving DecidableEq

/-- The external collaborators of one process_query call: the spaCy facts
for this query, the outcome of rag_system.retrieve_documents, the outcome
of the generation backend (generator composed with the prompt built from
the query and the retrieved documents), and the indexed direct lookup. -/
structure Env where
  nlp : NlpOracle := {}
  retrieveDocuments : Except Err (List Doc) := Except.ok []
  generate : String → List Doc → Except Err String := fun _ _ => Except.ok ""
  directLookup : String → Option Metadata := fun _ => none

/-- The observable outcome of one process_query call: the returned response
or the propagated exception, the conversation state with every mutation
performed before the return or abort point, and whether the retrieval
strategy and the generation backend were invoked. -/
structure TurnResult where
  response : Except Err Response
  state : ConversationState
  retrievalCalled : Bool
  generationCalled : Bool

/-- process_query (src/query_processor.py): the full turn state machine. -/
def processQuery (env : Env) (query : String) (st : ConversationState) : TurnResult :=
  let pq := parseNaturalLanguage env.nlp query
  if ctxTruthy (getContextS st "disambiguation_options") ∧ pq.intent = Intent.selection then
    let pr := handleDisambiguationSelection pq st
    { response := Except.ok pr.1, state := addTurn pr.2 query pr.1,
      retrievalCalled := false, generationCalled := false }
  else
    let st1 := clearContext st
    if pq.intent = Intent.directLookup then
      let response := handleDirectLookup env.directLookup (pq.hsnCode.getD "")
      { response := Except.ok response, state := addTurn st1 query response,
        retrievalCalled := false, generationCalled := false }
    else if pq.intent = Intent.summarization then
      let response := handleSummarizationQuery query
      { response := Except.ok response, state := addTurn st1 query response,
        retrievalCalled := false, generationCalled := false }
    else
      match env.retrieveDocuments with
      | Except.error e =>
        { response := Except.error e, state := st1,
          retrievalCalled := true, generationCalled := false }
      | Except.ok retrievedDocs =>
        let topScore := (retrievedDocs.headD {}).score.getD 0
        if topScore < relevanceThreshold then
          { response := Except.ok noResultResponse, state := addTurn st1 query noResultResponse,
            retrievalCalled := true, generationCalled := false }
        else
          let amb := identifyAmbiguousCases retrievedDocs
          if amb.1 then
            let response := generateDisambiguationPrompt amb.2
            let st2 := setContextS st1 "disambiguation_options" amb.2
            { response := Except.ok response, state := addTurn st2 query response,
              retrievalCalled := true, generationCalled := false }
          else
            match env.generate query retrievedDocs with
            | Except.error e =>
              { response := Except.error e, state := st1,
                retrievalCalled := true, generationCalled := true }
            | Except.ok generatedText =>
              let response :=
                { generateStructuredResponse generatedText retrievedDocs with
                    rtype := some "classification_result" }
              { response := Except.ok response, state := addTurn st1 query response,
                retrievalCalled := true, generationCalled := true }

/-! The in-memory graph backend (NetworkXBackend, src/graph_backends.py).
A directed graph is modelled as insertion-ordered lists of nodes (id with
an attribute dictionary) and edges; networkx stores the relation of an
edge under the attribute key "type", modelled here as the relType field,
with the remaining edge properties (similarity scores) alongside. -/

/-- A directed edge with its attribute dictionary. -/
structure Edge where
  source : String
  target : String
  relType : String
  props : List (String × Rat) := []
deriving DecidableEq

/-- A directed graph: nodes in insertion order with attribute
dictionaries, and edges in insertion order. -/
structure NXGraph where
  nodes : List (String × List (String × String)) := []
  edges : List Edge := []
deriving DecidableEq

/-- graph.has_node. -/
def hasNode (g : NXGraph) (nodeId : String) : Bool :=
  g.nodes.any (fun p => p.1 == nodeId)

/-- graph.has_edge: an edge between the pair exists, in any relation. -/
def hasEdge (g : NXGraph) (sourceId targetId : String) : Bool :=
  g.edges.any (fun e => e.source == sourceId && e.target == targetId)

/-- networkx auto-creation of a missing endpoint node (empty attributes). -/
def ensureNode (g : NXGraph) (nodeId : String) : NXGraph :=
  if hasNode g nodeId then g else { g with nodes := g.nodes ++ [(nodeId, [])] }

/-- NetworkXBackend.add_node: no-op when the id already exists. -/
def addNode (g : NXGraph) (nodeId : String) (properties : List (String × String)) : NXGraph :=
  if hasNode g nodeId then g else { g with nodes := g.nodes ++ [(nodeId, properties)] }

/-- NetworkXBackend.add_edge: no-op when any edge between the pair exists
(the guard is has_edge(source, target), which ignores the relation);
otherwise insert the edge, auto-creating missing endpoint nodes. -/
def addEdge (g : NXGraph) (sourceId targetId relType : String)
    (properties : List (String × Rat)) : NXGraph :=
  if hasEdge g sourceId targetId then g
  else
    let g1 := ensureNode (ensureNode g sourceId) targetId
    { g1 with edges := g1.edges ++
        [{ source := sourceId, target := targetId, relType := relType, props := properties }] }

/-- NetworkXBackend.get_statistics: node and edge counts. -/
def getStatistics (g : NXGraph) : Nat × Nat :=
  (g.nodes.length, g.edges.length)

/-! The graph builder (KnowledgeGraphBuilder, src/graph_builder.py). -/

/-- The metadata of one flat record as accessed by the builder: the four
ids are indexed directly (required keys), the descriptions through
dict.get with default N/A (optional keys). -/
structure BuildMeta where
  chapter : String
  heading : String
  subheading : String
  hsnCode : String
  chapterDescription : Option String := none
  headingDescription : Option String := none
  subheadingDescription : Option String := none
  itemDescription : Option String := none
deriving DecidableEq

/-- One loaded document of the builder: text plus metadata. -/
structure BuildDoc where
  text : String := ""
  metadata : BuildMeta
deriving DecidableEq

/-- add_entity_relationships: the four prefix-tagged nodes and the three
hierarchy edges of one record, through the idempotent backend operations. -/
def addEntityRelationships (g : NXGraph) (m : BuildMeta) : NXGraph :=
  let chapterId := "chap_" ++ m.chapter
  let headingId := "head_" ++ m.heading
  let subheadingId := "sub_" ++ m.subheading
  let codeId := "code_" ++ m.hsnCode
  let g1 := addNode g chapterId
    [("id", chapterId), ("description", m.chapterDescription.getD "N/A"), ("label", "Chapter")]
  let g2 := addNode g1 headingId
    [("id", headingId), ("description", m.headingDescription.getD "N/A"), ("label", "Heading")]
  let g3 := addNode g2 subheadingId
    [("id", subheadingId), ("description", m.subheadingDescription.getD "N/A"), ("label", "Subheading")]
  let g4 := addNode g3 codeId
    [("id", codeId), ("description", m.itemDescription.getD "N/A"), ("label", "HSNCode")]
  let g5 := addEdge g4 chapterId headingId "HAS_HEADING" []
  let g6 := addEdge g5 headingId subheadingId "HAS_SUBHEADING" []
  addEdge g6 subheadingId codeId "HAS_CODE" []

/-- build_hsn_knowledge_graph: raise when no documents are loaded, else
fold add_entity_relationships over the loaded documents. -/
def buildHsnKnowledgeGraph (documents : List BuildDoc) (g : NXGraph) : Except String NXGraph :=
  if documents.isEmpty then
    Except.error "Documents not loaded. Call load_documents() first."
  else
    Except.ok (documents.foldl (fun acc doc => addEntityRelationships acc doc.metadata) g)

/-! The graph-contextual enrichment (GraphContextualStrategy,
src/retrieval_strategies.py). -/

/-- The graph backend seen by the strategy: the in-memory variant carrying
its graph, or any other backend (the isinstance check fails). -/
inductive Backend where
  | networkx (graph : NXGraph)
  | other
deriving DecidableEq

/-- The attribute dictionary of a node. -/
def nodeAttrs (g : NXGraph) (nodeId : String) : List (String × String) :=
  ((g.nodes.find? (fun p => p.1 == nodeId)).map (fun p => p.2)).getD []

/-- dict.get on a node attribute dictionary. -/
def attrGet (attrs : List (String × String)) (k d : String) : String :=
  ((attrs.find? (fun p => p.1 == k)).map (fun p => p.2)).getD d

/-- list(graph.predecessors(node))[0]: the source of the first in-edge of
the node in insertion order, when the node has an in-edge. -/
def firstPredecessor (g : NXGraph) (nodeId : String) : Option String :=
  ((g.edges.filter (fun e => e.target == nodeId)).head?).map (fun e => e.source)

/-- The while loop of _get_graph_context: append the current node, follow
the first predecessor until no predecessor remains.  The loop is bounded
by a fuel argument; a walk that terminates needs at most one step per
node of the graph. -/
def walkUp (g : NXGraph) : Nat → String → List String
  | 0, currentNode => [currentNode]
  | fuel + 1, currentNode =>
    match firstPredecessor g currentNode with
    | none => [currentNode]
    | some p => currentNode :: walkUp g fuel p

/-- The context string built from a walk path: label and description (with
their dict.get defaults) of every node whose label is not HSNCode, in
reversed (root-to-leaf) order, joined with a period and a space. -/
def contextFromPath (g : NXGraph) (pathNodes : List String) : String :=
  String.intercalate ". "
    (((pathNodes.reverse.map (fun n =>
        (attrGet (nodeAttrs g n) "label" "Unknown", attrGet (nodeAttrs g n) "description" "N/A"))).filter
      (fun p => p.1 ≠ "HSNCode")).map (fun p => p.1 ++ ": " ++ p.2))

/-- _get_graph_context: a fixed placeholder for a non-NetworkX backend, a
not-found message when the code node is absent, otherwise the context of
the first-predecessor walk from the code node. -/
def getGraphContext (b : Backend) (hsnCode : String) : String :=
  match b with
  | Backend.other => "Graph context not available for this backend."
  | Backend.networkx g =>
    let nodeId := "code_" ++ hsnCode
    if !hasNode g nodeId then "HSN code not found in graph."
    else contextFromPath g (walkUp g g.nodes.length nodeId)

/-- Python truthiness of metadata.get applied to hsn_code: None and the
empty string are falsy. -/
def pyTruthyStr (o : Option String) : Bool :=
  o.getD "" ≠ ""

/-- The enrichment loop of GraphContextualStrategy.retrieve, after the
base retrieval: attach the graph context to every result with a truthy
hsn_code, appending every result to the output list. -/
def graphContextEnhance (b : Backend) (initialResults : List Doc) : List Doc :=
  initialResults.foldl (fun enhancedResults res =>
    if pyTruthyStr res.metadata.hsnCode then
      enhancedResults ++ [{ res with graphContext := some (getGraphContext b (res.metadata.hsnCode.getD "")) }]
    else
      enhancedResults ++ [res]) []

/-- A declarative description of a terminating first-predecessor walk: the
list starts at the given node, each element is followed by its first
predecessor, and the last element has no predecessor. -/
def isWalkFrom (g : NXGraph) : String → List String → Prop
  | _, [] => False
  | start, [n] => n = start ∧ firstPredecessor g n = none
  | start, n :: m :: rest => n = start ∧ firstPredecessor g n = some m ∧ isWalkFrom g m (m :: rest)

/-- The four nodes and three hierarchy edges of one record are all present
in a graph; add_entity_relationships is the identity exactly on such
graphs. -/
def containsEntity (g : NXGraph) (m : BuildMeta) : Prop :=
  hasNode g ("chap_" ++ m.chapter) = true ∧
  hasNode g ("head_" ++ m.heading) = true ∧
  hasNode g ("sub_" ++ m.subheading) = true ∧
  hasNode g ("code_" ++ m.hsnCode) = true ∧
  hasEdge g ("chap_" ++ m.chapter) ("head_" ++ m.heading) = true ∧
  hasEdge g ("head_" ++ m.heading) ("sub_" ++ m.subheading) = true ∧
  hasEdge g ("sub_" ++ m.subheading) ("code_" ++ m.hsnCode) = true

/-! Concrete fixtures used by the witness and counterexample theorems. -/

/-- A high-scoring retrieved document. -/
def dHigh : Doc :=
  { id := "hsn_40169990", text := "Other articles of vulcanised rubber",
    metadata := { hsnCode := some "40169990", itemDescription := some "Other articles of vulcanised rubber" },
    score := some (91 / 100) }

/-- A near-tied second document (gap 0.12 below the threshold 0.15). -/
def dNear : Doc :=
  { id := "hsn_40169100", text := "Floor coverings and mats of rubber",
    metadata := { hsnCode := some "40169100", itemDescription := some "Floor coverings and mats" },
    score := some (79 / 100) }

/-- A clear-margin top document. -/
def dTop : Doc :=
  { id := "hsn_40111000", text := "New pneumatic tyres of rubber for cars",
    metadata := { hsnCode := some "40111000", itemDescription := some "New pneumatic tyres" },
    score := some (95 / 100) }

/-- A distant second document (gap 0.35 at or above the threshold 0.15). -/
def dFar : Doc :=
  { id := "hsn_40121900", text := "Retreaded tyres of rubber",
    metadata := { hsnCode := some "40121900", itemDescription := some "Retreaded tyres" },
    score := some (60 / 100) }

/-- A document below the relevance threshold. -/
def dLow : Doc :=
  { id := "hsn_99999999", text := "Unrelated filler", metadata := {},
    score := some (30 / 100) }

/-- The default conversation state of a fresh session. -/
def stEmpty : ConversationState := {}

/-- A state with three pending disambiguation options. -/
def stPend : ConversationState :=
  { currentContext := [("disambiguation_options", [dHigh, dNear, dTop])] }

/-- An environment whose retrieval returns two near-tied documents. -/
def envAmb : Env :=
  { retrieveDocuments := Except.ok [dHigh, dNear] }

/-- An environment whose retrieval returns a clear-margin pair and whose
generation succeeds. -/
def envClear : Env :=
  { retrieveDocuments := Except.ok [dTop, dFar],
    generate := fun _ _ => Except.ok "The most likely HSN code is 40111000." }

/-- An environment whose retrieval returns a single document and whose
generation succeeds. -/
def envSingle : Env :=
  { retrieveDocuments := Except.ok [dHigh],
    generate := fun _ _ => Except.ok "The most likely HSN code is 40169990." }

/-- An environment whose retrieval returns one low-scored document. -/
def envLow : Env :=
  { retrieveDocuments := Except.ok [dLow] }

/-- An environment whose retrieval raises. -/
def envFail : Env :=
  { retrieveDocuments := Except.error { msg := "vector store unavailable" } }

/-- An environment whose spaCy oracle reports a selection keyword. -/
def envKw : Env :=
  { nlp := { hasSelectionKeyword := true } }

/-- The default environment (classification oracle, empty retrieval). -/
def envPlain : Env := {}

/-- The record of the demonstration taxonomy entry. -/
def demoMeta : BuildMeta :=
  { chapter := "40", heading := "4016", subheading := "401699", hsnCode := "40169990",
    chapterDescription := some "Rubber and articles thereof",
    headingDescription := some "Other articles of vulcanised rubber",
    subheadingDescription := some "Other",
    itemDescription := some "Other articles of vulcanised rubber, n.e.s." }

/-- A second record sharing no ids with the first. -/
def demoMeta2 : BuildMeta :=
  { chapter := "84", heading := "8407", subheading := "840731", hsnCode := "84073110",
    chapterDescription := some "Machinery and mechanical appliances",
    headingDescription := some "Spark-ignition engines",
    subheadingDescription := some "Of a cylinder capacity not exceeding 50 cc",
    itemDescription := some "Petrol engines up to 50 cc" }

/-- The demonstration document list of the builder. -/
def demoDocs : List BuildDoc :=
  [{ text := "Other articles of vulcanised rubber, n.e.s.", metadata := demoMeta },
   { text := "Petrol engines up to 50 cc", metadata := demoMeta2 }]

/-- The hierarchy graph of the single demonstration record. -/
def demoGraph : NXGraph := addEntityRelationships {} demoMeta

/-- The graph built from the demonstration document list. -/
def demoBuilt : NXGraph :=
  match buildHsnKnowledgeGraph demoDocs {} with
  | Except.ok g => g
  | Except.error _ => {}

/-- A one-edge graph between two plain nodes. -/
def gPair : NXGraph := addEdge {} "a" "b" "HAS_HEADING" []

/-! Helper lemmas about the in-memory graph operations. -/

theorem ensureNode_edges (g : NXGraph) (n : String) : (ensureNode g n).edges = g.edges := by
  unfold ensureNode
  split <;> rfl

theorem addNode_edges (g : NXGraph) (n : String) (pr : List (String × String)) :
    (addNode g n pr).edges = g.edges := by
  unfold addNode
  split <;> rfl

theorem hasNode_addNode_self {g : NXGraph} {n : String} {pr : List (String × String)} :
    hasNode (addNode g n pr) n = true := by
  unfold addNode
  split
  · assumption
  · unfold hasNode
    simp [List.any_append]

theorem hasNode_mono_addNode {g : NXGraph} {m : String} {pr : List (String × String)}
    {n : String} (h : hasNode g n = true) : hasNode (addNode g m pr) n = true := by
  unfold addNode
  split
  · exact h
  · unfold hasNode at h ⊢
    simp [List.any_append, h]

theorem hasNode_mono_ensureNode {g : NXGraph} {m n : String}
    (h : hasNode g n = true) : hasNode (ensureNode g m) n = true := by
  unfold ensureNode
  split
  · exact h
  · unfold hasNode at h ⊢
    simp [List.any_append, h]

theorem hasNode_mono_addEdge {g : NXGraph} {s t rel : String} {pr : List (String × Rat)}
    {n : String} (h : hasNode g n = true) : hasNode (addEdge g s t rel pr) n = true := by
  unfold addEdge
  split
  · exact h
  · exact hasNode_mono_ensureNode (hasNode_mono_ensureNode h)

theorem hasEdge_addNode (g : NXGraph) (m : String) (pr : List (String × String))
    (s t : String) : hasEdge (addNode g m pr) s t = hasEdge g s t := by
  unfold hasEdge
  rw [addNode_edges]

theorem hasEdge_mono_addEdge {g : NXGraph} {s' t' rel : String} {pr : List (String × Rat)}
    {s t : String} (h : hasEdge g s t = true) : hasEdge (addEdge g s' t' rel pr) s t = true := by
  unfold addEdge
  split
  · exact h
  · unfold hasEdge at h ⊢
    simp [ensureNode_edges, List.any_append, h]

theorem hasEdge_addEdge_self {g : NXGraph} {s t rel : String} {pr : List (String × Rat)} :
    hasEdge (addEdge g s t rel pr) s t = true := by
  unfold addEdge
  split
  · assumption
  · unfold hasEdge
    simp [ensureNode_edges, List.any_append]

theorem addNode_eq_of_hasNode {g : NXGraph} {n : String} {pr : List (String × String)}
    (h : hasNode g n = true) : addNode g n pr = g := by
  unfold addNode
  rw [if_pos h]

theorem addEdge_eq_of_hasEdge {g : NXGraph} {s t rel : String} {pr : List (String × Rat)}
    (h : hasEdge g s t = true) : addEdge g s t rel pr = g := by
  unfold addEdge
  rw [if_pos h]

/-- C4 counterexample: after inserting the (a, b, HAS_HEADING) edge, a call
of add_edge with the different relation SIBLING_OF between the same pair
is silently dropped: the graph is unchanged and holds no SIBLING_OF edge,
refuting that add_edge no-ops only on an identical (source, target,
relation) triple. -/
theorem add_edge_relation_ignored_cex :
    addEdge gPair "a" "b" "SIBLING_OF" [] = gPair ∧
    (gPair.edges.filter (fun e => e.relType == "SIBLING_OF")).length = 0 ∧
    (addEdge gPair "a" "b" "SIBLING_OF" []).edges.map (fun e => e.relType) = ["HAS_HEADING"] := by
  refine ⟨by decide, by decide, by decide⟩

/-- C4 (amended): for the in-memory NetworkX backend, add_edge is a no-op
exactly when some edge between (source, target) already exists, regardless
of the relation; duplicate insertion never raises, and an edge carrying a
different relation between an already-connected pair is silently dropped
rather than created. -/
theorem add_edge_noop_iff_pair_connected (g : NXGraph) (s t rel : String)
    (pr : List (String × Rat)) :
    addEdge g s t rel pr = g ↔ hasEdge g s t = true := by
  constructor
  · intro h
    by_contra hne
    have hlen : (addEdge g s t rel pr).edges.length = g.edges.length + 1 := by
      unfold addEdge
      rw [if_neg hne]
      simp [ensureNode_edges]
    rw [h] at hlen
    omega
  · intro h
    unfold addEdge
    rw [if_pos h]

/-- C4 witness: a concrete application of the no-op characterization. -/
theorem add_edge_noop_iff_pair_connected_witness :
    addEdge gPair "a" "b" "SIMILAR_TO" [] = gPair :=
  (add_edge_noop_iff_pair_connected gPair "a" "b" "SIMILAR_TO" []).mpr (by decide)

/-! Helper lemmas for the builder idempotence. -/

theorem containsEntity_addEntity_self (g : NXGraph) (m : BuildMeta) :
    containsEntity (addEntityRelationships g m) m := by
  refine ⟨?_, ?_, ?_, ?_, ?_, ?_, ?_⟩
  · exact hasNode_mono_addEdge (hasNode_mono_addEdge (hasNode_mono_addEdge
      (hasNode_mono_addNode (hasNode_mono_addNode (hasNode_mono_addNode hasNode_addNode_self)))))
  · exact hasNode_mono_addEdge (hasNode_mono_addEdge (hasNode_mono_addEdge
      (hasNode_mono_addNode (hasNode_mono_addNode hasNode_addNode_self))))
  · exact hasNode_mono_addEdge (hasNode_mono_addEdge (hasNode_mono_addEdge
      (hasNode_mono_addNode hasNode_addNode_self)))
  · exact hasNode_mono_addEdge (hasNode_mono_addEdge (hasNode_mono_addEdge hasNode_addNode_self))
  · exact hasEdge_mono_addEdge (hasEdge_mono_addEdge hasEdge_addEdge_self)
  · exact hasEdge_mono_addEdge hasEdge_addEdge_self
  · exact hasEdge_addEdge_self

theorem containsEntity_mono {g : NXGraph} {m : BuildMeta} (m' : BuildMeta)
    (h : containsEntity g m) : containsEntity (addEntityRelationships g m') m := by
  obtain ⟨h1, h2, h3, h4, h5, h6, h7⟩ := h
  refine ⟨?_, ?_, ?_, ?_, ?_, ?_, ?_⟩
  · exact hasNode_mono_addEdge (hasNode_mono_addEdge (hasNode_mono_addEdge
      (hasNode_mono_addNode (hasNode_mono_addNode (hasNode_mono_addNode (hasNode_mono_addNode h1))))))
  · exact hasNode_mono_addEdge (hasNode_mono_addEdge (hasNode_mono_addEdge
      (hasNode_mono_addNode (hasNode_mono_addNode (hasNode_mono_addNode (hasNode_mono_addNode h2))))))
  · exact hasNode_mono_addEdge (hasNode_mono_addEdge (hasNode_mono_addEdge
      (hasNode_mono_addNode (hasNode_mono_addNode (hasNode_mono_addNode (hasNode_mono_addNode h3))))))
  · exact hasNode_mono_addEdge (hasNode_mono_addEdge (hasNode_mono_addEdge
      (hasNode_mono_addNode (hasNode_mono_addNode (hasNode_mono_addNode (hasNode_mono_addNode h4))))))
  · exact hasEdge_mono_addEdge (hasEdge_mono_addEdge (hasEdge_mono_addEdge (by
      rw [hasEdge_addNode, hasEdge_addNode, hasEdge_addNode, hasEdge_addNode]; exact h5)))
  · exact hasEdge_mono_addEdge (hasEdge_mono_addEdge (hasEdge_mono_addEdge (by
      rw [hasEdge_addNode, hasEdge_addNode, hasEdge_addNode, hasEdge_addNode]; exact h6)))
  · exact hasEdge_mono_addEdge (hasEdge_mono_addEdge (hasEdge_mono_addEdge (by
      rw [hasEdge_addNode, hasEdge_addNode, hasEdge_addNode, hasEdge_addNode]; exact h7)))

theorem addEntity_eq_of_contains {g : NXGraph} {m : BuildMeta}
    (h : containsEntity g m) : addEntityRelationships g m = g := by
  obtain ⟨h1, h2, h3, h4, h5, h6, h7⟩ := h
  unfold addEntityRelationships
  simp only []
  rw [addNode_eq_of_hasNode h1, addNode_eq_of_hasNode h2, addNode_eq_of_hasNode h3,
    addNode_eq_of_hasNode h4, addEdge_eq_of_hasEdge h5, addEdge_eq_of_hasEdge h6,
    addEdge_eq_of_hasEdge h7]

theorem foldl_preserves_contains (docs : List BuildDoc) :
    ∀ (g : NXGraph) (m : BuildMeta), containsEntity g m →
      containsEntity (docs.foldl (fun acc d => addEntityRelationships acc d.metadata) g) m := by
  induction docs with
  | nil => intro g m h; exact h
  | cons d rest ih => intro g m h; exact ih _ _ (containsEntity_mono d.metadata h)

theorem foldl_contains_all (docs : List BuildDoc) :
    ∀ (g : NXGraph) (d : BuildDoc), d ∈ docs →
      containsEntity (docs.foldl (fun acc d => addEntityRelationships acc d.metadata) g) d.metadata := by
  induction docs with
  | nil => intro g d h; cases h
  | cons d0 rest ih =>
    intro g d h
    rcases List.mem_cons.mp h with h0 | hrest
    · subst h0
      exact foldl_preserves_contains rest _ _ (containsEntity_addEntity_self g d.metadata)
    · exact ih _ _ hrest

theorem foldl_fixed_of_contains (docs : List BuildDoc) :
    ∀ (g : NXGraph), (∀ d ∈ docs, containsEntity g d.metadata) →
      docs.foldl (fun acc d => addEntityRelationships acc d.metadata) g = g := by
  induction docs with
  | nil => intro g _; rfl
  | cons d rest ih =>
    intro g h
    have h0 : addEntityRelationships g d.metadata = g :=
      addEntity_eq_of_contains (h d (List.mem_cons_self d rest))
    show rest.foldl (fun acc d => addEntityRelationships acc d.metadata)
      (addEntityRelationships g d.metadata) = g
    rw [h0]
    exact ih g (fun d' hd' => h d' (List.mem_cons_of_mem d hd'))

/-- C5: building the hierarchical graph again over the record set that
produced a graph returns that very graph (hence identical node and edge
counts), because add_node no-ops on an existing id leaving the stored
properties unchanged and add_edge no-ops on repeated insertion. -/
theorem build_graph_idempotent (docs : List BuildDoc) (g g' : NXGraph)
    (h : buildHsnKnowledgeGraph docs g = Except.ok g') :
    buildHsnKnowledgeGraph docs g' = Except.ok g' ∧
    (∀ g2, buildHsnKnowledgeGraph docs g' = Except.ok g2 → getStatistics g2 = getStatistics g') ∧
    (∀ gg n pr, hasNode gg n = true → addNode gg n pr = gg) ∧
    (∀ gg s t rel pr, hasEdge gg s t = true → addEdge gg s t rel pr = gg) := by
  unfold buildHsnKnowledgeGraph at h
  by_cases hd : docs.isEmpty
  · rw [if_pos hd] at h
    cases h
  · rw [if_neg hd] at h
    have hg' : docs.foldl (fun acc d => addEntityRelationships acc d.metadata) g = g' :=
      Except.ok.inj h
    have hall : ∀ d ∈ docs, containsEntity g' d.metadata := by
      intro d hd'
      rw [← hg']
      exact foldl_contains_all docs g d hd'
    have hfix : docs.foldl (fun acc d => addEntityRelationships acc d.metadata) g' = g' :=
      foldl_fixed_of_contains docs g' hall
    have hbuild : buildHsnKnowledgeGraph docs g' = Except.ok g' := by
      unfold buildHsnKnowledgeGraph
      rw [if_neg hd, hfix]
    refine ⟨hbuild, ?_, ?_, ?_⟩
    · intro g2 h2
      rw [hbuild] at h2
      rw [Except.ok.inj h2]
    · intro gg n pr hn
      exact addNode_eq_of_hasNode hn
    · intro gg s t rel pr he
      exact addEdge_eq_of_hasEdge he

/-- C5 witness: rebuilding over the two demonstration records returns the
already-built graph unchanged. -/
theorem build_graph_idempotent_witness :
    buildHsnKnowledgeGraph demoDocs demoBuilt = Except.ok demoBuilt :=
  (build_graph_idempotent demoDocs {} demoBuilt rfl).1

/-! Helper lemmas for the graph-context walk. -/

theorem walkUp_eq_of_isWalkFrom (g : NXGraph) :
    ∀ (ns : List String) (start : String) (fuel : Nat),
      isWalkFrom g start ns → ns.length ≤ fuel + 1 → walkUp g fuel start = ns := by
  intro ns
  induction ns with
  | nil =>
    intro start fuel h _
    exact h.elim
  | cons n rest ih =>
    intro start fuel h hlen
    cases rest with
    | nil =>
      obtain ⟨hstart, hpred⟩ := h
      subst hstart
      cases fuel with
      | zero => rfl
      | succ f =>
        unfold walkUp
        rw [hpred]
    | cons m rest2 =>
      obtain ⟨hstart, hpred, hrest⟩ := h
      subst hstart
      cases fuel with
      | zero =>
        simp only [List.length_cons] at hlen
        omega
      | succ f =>
        unfold walkUp
        rw [hpred]
        have htail : (m :: rest2).length ≤ f + 1 := by
          simp only [List.length_cons] at hlen ⊢
          omega
        show n :: walkUp g f m = n :: m :: rest2
        rw [ih m f hrest htail]

theorem foldl_snoc_eq_map (f : Doc → Doc) (l : List Doc) :
    ∀ acc : List Doc, l.foldl (fun a x => a ++ [f x]) acc = acc ++ l.map f := by
  induction l with
  | nil => intro acc; simp
  | cons x rest ih =>
    intro acc
    show rest.foldl (fun a x => a ++ [f x]) (acc ++ [f x]) = acc ++ (f x :: rest.map f)
    rw [ih (acc ++ [f x])]
    simp

/-- C8: the graph context of a retrieved candidate.  For a non-NetworkX
backend the context is the fixed placeholder and the lookup is total; for
the in-memory backend with the code node present, any terminating
first-predecessor walk path determines the context as the label-colon-
description entries of the nodes whose label is not HSNCode, in
root-to-leaf (reversed walk) order, joined by a period and space; and the
strategy attaches exactly that context to every candidate with a truthy
hsn_code. -/
theorem graph_context_characterized :
    (∀ hsn, getGraphContext Backend.other hsn = "Graph context not available for this backend.") ∧
    (∀ (g : NXGraph) (hsn : String) (ns : List String),
      hasNode g ("code_" ++ hsn) = true →
      isWalkFrom g ("code_" ++ hsn) ns →
      ns.length ≤ g.nodes.length + 1 →
      getGraphContext (Backend.networkx g) hsn =
        String.intercalate ". "
          (((ns.reverse.map (fun n => (attrGet (nodeAttrs g n) "label" "Unknown",
              attrGet (nodeAttrs g n) "description" "N/A"))).filter
            (fun p => p.1 ≠ "HSNCode")).map (fun p => p.1 ++ ": " ++ p.2))) ∧
    (∀ (b : Backend) (docs : List Doc),
      graphContextEnhance b docs = docs.map (fun res =>
        if pyTruthyStr res.metadata.hsnCode then
          { res with graphContext := some (getGraphContext b (res.metadata.hsnCode.getD "")) }
        else res)) := by
  refine ⟨fun _ => rfl, ?_, ?_⟩
  · intro g hsn ns hnode hwalk hlen
    show (if (!hasNode g ("code_" ++ hsn)) = true then "HSN code not found in graph."
      else contextFromPath g (walkUp g g.nodes.length ("code_" ++ hsn))) = _
    rw [hnode]
    show contextFromPath g (walkUp g g.nodes.length ("code_" ++ hsn)) = _
    rw [walkUp_eq_of_isWalkFrom g ns ("code_" ++ hsn) g.nodes.length hwalk hlen]
    rfl
  · intro b docs
    unfold graphContextEnhance
    have hstep :
        (fun (enhancedResults : List Doc) (res : Doc) =>
          if pyTruthyStr res.metadata.hsnCode then
            enhancedResults ++ [{ res with graphContext := some (getGraphContext b (res.metadata.hsnCode.getD "")) }]
          else enhancedResults ++ [res]) =
        (fun (a : List Doc) (res : Doc) =>
          a ++ [if pyTruthyStr res.metadata.hsnCode then
            { res with graphContext := some (getGraphContext b (res.metadata.hsnCode.getD "")) }
          else res]) := by
      funext a res
      split <;> rfl
    rw [hstep, foldl_snoc_eq_map]
    simp

/-- C8 witness: the context of the demonstration code node walks up the
one-record hierarchy graph and lists the chapter, heading and subheading
descriptions in root-to-leaf order, skipping the HSNCode node. -/
theorem graph_context_characterized_witness :
    getGraphContext (Backend.networkx demoGraph) "40169990" =
      "Chapter: Rubber and articles thereof. Heading: Other articles of vulcanised rubber. Subheading: Other" := by
  have h := graph_context_characterized.2.1 demoGraph "40169990"
    ["code_40169990", "sub_401699", "head_4016", "chap_40"]
    (by decide) ⟨rfl, by decide, rfl, by decide, rfl, by decide, rfl, by decide⟩ (by decide)
  exact h.trans (by decide)

/-- C6: a query holding an 8-digit numeric token is classified as
direct_lookup in every conversation state (pending disambiguation options
included); the turn answers through the indexed direct lookup, never
invokes the retrieval strategy or the generation backend, appends one
turn, and ends with an empty context (state Idle, no options stored). -/
theorem direct_lookup_short_circuit (env : Env) (query : String) (st : ConversationState)
    (code : String) (hcode : hsnCodeSearch query = some code) :
    (parseNaturalLanguage env.nlp query).intent = Intent.directLookup ∧
    processQuery env query st =
      { response := Except.ok (handleDirectLookup env.directLookup code),
        state := { st with
          currentContext := [],
          turnHistory := st.turnHistory ++
            [{ userQuery := query, systemResponse := handleDirectLookup env.directLookup code }] },
        retrievalCalled := false, generationCalled := false } := by
  have hpq : parseNaturalLanguage env.nlp query =
      { intent := Intent.directLookup, hsnCode := some code } := by
    unfold parseNaturalLanguage
    rw [hcode]
  refine ⟨by rw [hpq], ?_⟩
  simp only [processQuery]
  rw [hpq]
  simp [addTurn, clearContext]

/-- C6 witness: a concrete query carrying the token 40169990 in a state
with pending options still short-circuits to direct lookup. -/
theorem direct_lookup_short_circuit_witness :
    hsnCodeSearch "tell me about 40169990" = some "40169990" ∧
    processQuery envPlain "tell me about 40169990" stPend =
      { response := Except.ok (handleDirectLookup envPlain.directLookup "40169990"),
        state := { stPend with
          currentContext := [],
          turnHistory := stPend.turnHistory ++
            [{ userQuery := "tell me about 40169990",
               systemResponse := handleDirectLookup envPlain.directLookup "40169990" }] },
        retrievalCalled := false, generationCalled := false } :=
  ⟨rfl, (direct_lookup_short_circuit envPlain "tell me about 40169990" stPend "40169990" rfl).2⟩

/-- C7: on a turn that reaches retrieval, a result list whose top score
(zero for an empty list) is strictly below the relevance threshold yields
the fixed no_result response without invoking the generation backend and
without storing options, with one turn appended and an empty context. -/
theorem low_score_no_result (env : Env) (query : String) (st : ConversationState)
    (docs : List Doc)
    (hroute : (parseNaturalLanguage env.nlp query).intent = Intent.classification ∨
      ((parseNaturalLanguage env.nlp query).intent = Intent.selection ∧
        ¬ ctxTruthy (getContextS st "disambiguation_options")))
    (hret : env.retrieveDocuments = Except.ok docs)
    (hscore : (docs.headD {}).score.getD 0 < relevanceThreshold) :
    processQuery env query st =
      { response := Except.ok noResultResponse,
        state := { st with
          currentContext := [],
          turnHistory := st.turnHistory ++
            [{ userQuery := query, systemResponse := noResultResponse }] },
        retrievalCalled := true, generationCalled := false } ∧
    ((([] : List Doc).headD {}).score.getD 0 : Rat) = 0 := by
  refine ⟨?_, rfl⟩
  have hscore2 : (docs.head?.getD ({} : Doc)).score.getD 0 < relevanceThreshold := by
    simpa using hscore
  rcases hroute with hcl | ⟨hsel, hct⟩
  · simp only [processQuery]
    rw [hcl]
    simp [hret, hscore2, addTurn, clearContext]
  · simp only [processQuery]
    rw [hsel]
    simp [hct, hret, hscore2, addTurn, clearContext]

/-- C7 witness: a classification query whose single retrieved document
scores 0.30, below the 0.40 relevance threshold. -/
theorem low_score_no_result_witness :
    processQuery envLow "rubber gasket" stEmpty =
      { response := Except.ok noResultResponse,
        state := { stEmpty with
          currentContext := [],
          turnHistory := stEmpty.turnHistory ++
            [{ userQuery := "rubber gasket", systemResponse := noResultResponse }] },
        retrievalCalled := true, generationCalled := false } :=
  (low_score_no_result envLow "rubber gasket" stEmpty [dLow] (Or.inl (by decide)) rfl
    (by norm_num [dLow, relevanceThreshold])).1

/-- C1: on a turn that reaches the ambiguity check (the top score at or
above the relevance threshold), fewer than 2 documents yield a single
classification result with no options stored and an empty final context;
with at least 2 documents, a top-two gap strictly below the
disambiguation threshold yields a disambiguation response whose stored
and returned options are exactly the first min(3, length) documents; a
gap at or above the threshold yields a single classification result with
no options stored. -/
theorem ambiguity_check_branches (env : Env) (query : String) (st : ConversationState)
    (docs : List Doc)
    (hroute : (parseNaturalLanguage env.nlp query).intent = Intent.classification ∨
      ((parseNaturalLanguage env.nlp query).intent = Intent.selection ∧
        ¬ ctxTruthy (getContextS st "disambiguation_options")))
    (hret : env.retrieveDocuments = Except.ok docs)
    (hrel : relevanceThreshold ≤ (docs.headD {}).score.getD 0) :
    (docs.length < 2 → ∀ txt, env.generate query docs = Except.ok txt →
      processQuery env query st =
        { response := Except.ok
            { generateStructuredResponse txt docs with rtype := some "classification_result" },
          state := { st with
            currentContext := [],
            turnHistory := st.turnHistory ++
              [{ userQuery := query,
                 systemResponse :=
                   { generateStructuredResponse txt docs with rtype := some "classification_result" } }] },
          retrievalCalled := true, generationCalled := true }) ∧
    (2 ≤ docs.length →
      (docs.getD 0 {}).score.getD 0 - (docs.getD 1 {}).score.getD 0 < disambiguationThreshold →
      processQuery env query st =
        { response := Except.ok (generateDisambiguationPrompt (docs.take 3)),
          state := { st with
            currentContext := [("disambiguation_options", docs.take 3)],
            turnHistory := st.turnHistory ++
              [{ userQuery := query, systemResponse := generateDisambiguationPrompt (docs.take 3) }] },
          retrievalCalled := true, generationCalled := false } ∧
      (generateDisambiguationPrompt (docs.take 3)).options = docs.take 3 ∧
      (docs.take 3).length = min 3 docs.length) ∧
    (2 ≤ docs.length →
      disambiguationThreshold ≤ (docs.getD 0 {}).score.getD 0 - (docs.getD 1 {}).score.getD 0 →
      ∀ txt, env.generate query docs = Except.ok txt →
      processQuery env query st =
        { response := Except.ok
            { generateStructuredResponse txt docs with rtype := some "classification_result" },
          state := { st with
            currentContext := [],
            turnHistory := st.turnHistory ++
              [{ userQuery := query,
                 systemResponse :=
                   { generateStructuredResponse txt docs with rtype := some "classification_result" } }] },
          retrievalCalled := true, generationCalled := true }) := by
  have hrel2 : ¬ (docs.head?.getD ({} : Doc)).score.getD 0 < relevanceThreshold := by
    rw [not_lt]
    simpa using hrel
  refine ⟨?_, ?_, ?_⟩
  · intro hlen txt hgen
    rcases hroute with hcl | ⟨hsel, hct⟩
    · simp only [processQuery]
      rw [hcl]
      simp [hret, hrel2, identifyAmbiguousCases, hlen, hgen, addTurn, clearContext]
    · simp only [processQuery]
      rw [hsel]
      simp [hct, hret, hrel2, identifyAmbiguousCases, hlen, hgen, addTurn, clearContext]
  · intro hlen hgap
    have hlen2 : ¬ docs.length < 2 := by omega
    have hgapN : (docs[0]?.getD ({} : Doc)).score.getD 0 - (docs[1]?.getD ({} : Doc)).score.getD 0 <
        disambiguationThreshold := by simpa using hgap
    refine ⟨?_, rfl, by simp⟩
    rcases hroute with hcl | ⟨hsel, hct⟩
    · simp only [processQuery]
      rw [hcl]
      simp [hret, hrel2, identifyAmbiguousCases, hlen2, hgapN, addTurn, clearContext,
        setContextS, setContextMap]
    · simp only [processQuery]
      rw [hsel]
      simp [hct, hret, hrel2, identifyAmbiguousCases, hlen2, hgapN, addTurn, clearContext,
        setContextS, setContextMap]
  · intro hlen hgapge txt hgen
    have hlen2 : ¬ docs.length < 2 := by omega
    have hgap2 : ¬ (docs[0]?.getD ({} : Doc)).score.getD 0 - (docs[1]?.getD ({} : Doc)).score.getD 0 <
        disambiguationThreshold := by
      rw [not_lt]
      simpa using hgapge
    rcases hroute with hcl | ⟨hsel, hct⟩
    · simp only [processQuery]
      rw [hcl]
      simp [hret, hrel2, identifyAmbiguousCases, hlen2, hgap2, hgen, addTurn, clearContext]
    · simp only [processQuery]
      rw [hsel]
      simp [hct, hret, hrel2, identifyAmbiguousCases, hlen2, hgap2, hgen, addTurn, clearContext]

/-- C1 witness: scores 0.91/0.79 (gap 0.12) trigger disambiguation with
both documents stored; scores 0.95/0.60 (gap 0.35) and a singleton list
yield single classification results with nothing stored. -/
theorem ambiguity_check_branches_witness :
    processQuery envAmb "rubber sheet" stEmpty =
      { response := Except.ok (generateDisambiguationPrompt [dHigh, dNear]),
        state := { stEmpty with
          currentContext := [("disambiguation_options", [dHigh, dNear])],
          turnHistory := [{ userQuery := "rubber sheet",
                            systemResponse := generateDisambiguationPrompt [dHigh, dNear] }] },
        retrievalCalled := true, generationCalled := false } ∧
    processQuery envClear "car tyres" stEmpty =
      { response := Except.ok
          { generateStructuredResponse "The most likely HSN code is 40111000." [dTop, dFar] with
              rtype := some "classification_result" },
        state := { stEmpty with
          currentContext := [],
          turnHistory := [{ userQuery := "car tyres",
                            systemResponse :=
                              { generateStructuredResponse "The most likely HSN code is 40111000." [dTop, dFar] with
                                  rtype := some "classification_result" } }] },
        retrievalCalled := true, generationCalled := true } ∧
    processQuery envSingle "rubber gasket strip" stEmpty =
      { response := Except.ok
          { generateStructuredResponse "The most likely HSN code is 40169990." [dHigh] with
              rtype := some "classification_result" },
        state := { stEmpty with
          currentContext := [],
          turnHistory := [{ userQuery := "rubber gasket strip",
                            systemResponse :=
                              { generateStructuredResponse "The most likely HSN code is 40169990." [dHigh] with
                                  rtype := some "classification_result" } }] },
        retrievalCalled := true, generationCalled := true } :=
  ⟨((ambiguity_check_branches envAmb "rubber sheet" stEmpty [dHigh, dNear] (Or.inl (by decide))
      rfl (by norm_num [dHigh, relevanceThreshold])).2.1 (by norm_num)
      (by norm_num [dHigh, dNear, disambiguationThreshold])).1,
    (ambiguity_check_branches envClear "car tyres" stEmpty [dTop, dFar] (Or.inl (by decide))
      rfl (by norm_num [dTop, relevanceThreshold])).2.2 (by norm_num)
      (by norm_num [dTop, dFar, disambiguationThreshold])
      "The most likely HSN code is 40111000." rfl,
    (ambiguity_check_branches envSingle "rubber gasket strip" stEmpty [dHigh] (Or.inl (by decide))
      rfl (by norm_num [dHigh, relevanceThreshold])).1 (by norm_num)
      "The most likely HSN code is 40169990." rfl⟩

/-- C2: in a state with pending non-empty disambiguation options, a
selection-intent query is resolved by the first integer k in the query
text.  With 1 <= k <= N the engine returns option k's hsn_code with the
user-confirmed confidence marker and clears the context (state Idle);
with no parsable integer, or k out of range, it returns an error response
and the stored options remain intact (state stays AwaitingSelection). -/
theorem selection_resolution (env : Env) (query : String) (st : ConversationState)
    (opts : List Doc)
    (hopts : getContextS st "disambiguation_options" = some opts)
    (hne : opts ≠ [])
    (hhsn : hsnCodeSearch query = none)
    (hkw : (env.nlp.hasSelectionKeyword || stripIsDigit query) = true) :
    (∀ k, firstIntToken query = some k → 1 ≤ k → k ≤ opts.length →
      processQuery env query st =
        { response := Except.ok
            { rtype := some "classification_result",
              summary := "Thank you for clarifying. Based on your selection, the correct classification is HSN Code " ++
                (opts.getD (k - 1) {}).metadata.hsnCode.getD "N/A" ++ ".",
              topMatches := [{ hsnCode := some ((opts.getD (k - 1) {}).metadata.hsnCode.getD "N/A"),
                               metadata := (opts.getD (k - 1) {}).metadata }],
              confidence := some "Very High (User Confirmed)",
              tradePolicy := some "Free" },
          state := { st with
            currentContext := [],
            turnHistory := st.turnHistory ++
              [{ userQuery := query,
                 systemResponse :=
                   { rtype := some "classification_result",
                     summary := "Thank you for clarifying. Based on your selection, the correct classification is HSN Code " ++
                       (opts.getD (k - 1) {}).metadata.hsnCode.getD "N/A" ++ ".",
                     topMatches := [{ hsnCode := some ((opts.getD (k - 1) {}).metadata.hsnCode.getD "N/A"),
                                      metadata := (opts.getD (k - 1) {}).metadata }],
                     confidence := some "Very High (User Confirmed)",
                     tradePolicy := some "Free" } }] },
          retrievalCalled := false, generationCalled := false }) ∧
    (firstIntToken query = none →
      processQuery env query st =
        { response := Except.ok { summary := "I\x27m sorry, I didn\x27t understand that selection." },
          state := addTurn st query { summary := "I\x27m sorry, I didn\x27t understand that selection." },
          retrievalCalled := false, generationCalled := false } ∧
      getContextS (addTurn st query { summary := "I\x27m sorry, I didn\x27t understand that selection." })
        "disambiguation_options" = some opts) ∧
    (∀ k, firstIntToken query = some k → ¬ (1 ≤ k ∧ k ≤ opts.length) →
      processQuery env query st =
        { response := Except.ok { summary := "That\x27s not a valid option number." },
          state := addTurn st query { summary := "That\x27s not a valid option number." },
          retrievalCalled := false, generationCalled := false } ∧
      getContextS (addTurn st query { summary := "That\x27s not a valid option number." })
        "disambiguation_options" = some opts) := by
  have hpq : parseNaturalLanguage env.nlp query =
      { intent := Intent.selection, text := some query } := by
    unfold parseNaturalLanguage
    rw [hhsn]
    simp [hkw]
  refine ⟨?_, ?_, ?_⟩
  · intro k hk hk1 hk2
    simp only [processQuery]
    rw [hpq]
    simp [ctxTruthy, hopts, hne, handleDisambiguationSelection, hk, hk1, hk2,
      addTurn, clearContext]
  · intro hk
    refine ⟨?_, hopts⟩
    simp only [processQuery]
    rw [hpq]
    simp [ctxTruthy, hopts, hne, handleDisambiguationSelection, hk, addTurn]
  · intro k hk hk12
    refine ⟨?_, hopts⟩
    simp only [processQuery]
    rw [hpq]
    simp [ctxTruthy, hopts, hne, handleDisambiguationSelection, hk, hk12, addTurn]

/-- C2 witness: with three pending options, the query 2 selects the second
option and clears the context; the query 9 is rejected out of range and
the query of keyword form without a number is rejected as unparsable,
both leaving the stored options intact. -/
theorem selection_resolution_witness :
    processQuery envPlain "2" stPend =
      { response := Except.ok
          { rtype := some "classification_result",
            summary := "Thank you for clarifying. Based on your selection, the correct classification is HSN Code 40169100.",
            topMatches := [{ hsnCode := some "40169100", metadata := dNear.metadata }],
            confidence := some "Very High (User Confirmed)",
            tradePolicy := some "Free" },
        state := { stPend with
          currentContext := [],
          turnHistory := stPend.turnHistory ++
            [{ userQuery := "2",
               systemResponse :=
                 { rtype := some "classification_result",
                   summary := "Thank you for clarifying. Based on your selection, the correct classification is HSN Code 40169100.",
                   topMatches := [{ hsnCode := some "40169100", metadata := dNear.metadata }],
                   confidence := some "Very High (User Confirmed)",
                   tradePolicy := some "Free" } }] },
        retrievalCalled := false, generationCalled := false } ∧
    processQuery envPlain "9" stPend =
      { response := Except.ok { summary := "That\x27s not a valid option number." },
        state := addTurn stPend "9" { summary := "That\x27s not a valid option number." },
        retrievalCalled := false, generationCalled := false } ∧
    getContextS (processQuery envPlain "9" stPend).state "disambiguation_options" =
      some [dHigh, dNear, dTop] ∧
    processQuery envKw "please choose" stPend =
      { response := Except.ok { summary := "I\x27m sorry, I didn\x27t understand that selection." },
        state := addTurn stPend "please choose"
          { summary := "I\x27m sorry, I didn\x27t understand that selection." },
        retrievalCalled := false, generationCalled := false } := by
  have h2 := (selection_resolution envPlain "2" stPend [dHigh, dNear, dTop] rfl
    (by decide) rfl (by decide)).1 2 rfl (by decide) (by decide)
  have h9 := (selection_resolution envPlain "9" stPend [dHigh, dNear, dTop] rfl
    (by decide) rfl (by decide)).2.2 9 rfl (by decide)
  have hch := (selection_resolution envKw "please choose" stPend [dHigh, dNear, dTop] rfl
    (by decide) rfl (by decide)).2.1 rfl
  refine ⟨h2, h9.1, ?_, hch.1⟩
  rw [h9.1]
  exact h9.2

/-! Helper lemmas covering every branch of processQuery at once. -/

theorem handleSel_state_cases (pq : ParsedQuery) (st : ConversationState) :
    (handleDisambiguationSelection pq st).2 = st ∨
    (handleDisambiguationSelection pq st).2 = clearContext st := by
  simp only [handleDisambiguationSelection]
  repeat' split
  all_goals first | exact Or.inl rfl | exact Or.inr rfl

theorem processQuery_context_cases (env : Env) (query : String) (st : ConversationState) :
    (processQuery env query st).state.currentContext = [] ∨
    (processQuery env query st).state.currentContext = st.currentContext ∨
    (∃ resp, (processQuery env query st).response = Except.ok resp ∧
      resp.rtype = some "disambiguation" ∧
      (processQuery env query st).state.currentContext =
        [("disambiguation_options", resp.options)]) := by
  simp only [processQuery]
  repeat' split
  · rcases handleSel_state_cases (parseNaturalLanguage env.nlp query) st with h | h <;>
      simp [addTurn, h, clearContext]
  · exact Or.inl (by simp [addTurn, clearContext, setContextS])
  · exact Or.inl (by simp [addTurn, clearContext, setContextS])
  · exact Or.inl (by simp [addTurn, clearContext, setContextS])
  · exact Or.inl (by simp [addTurn, clearContext, setContextS])
  · exact Or.inr (Or.inr ⟨_, rfl, rfl,
      by simp [addTurn, setContextS, setContextMap, clearContext, generateDisambiguationPrompt]⟩)
  · exact Or.inl (by simp [addTurn, clearContext, setContextS])
  · exact Or.inl (by simp [addTurn, clearContext, setContextS])

theorem processQuery_response_state_cases (env : Env) (query : String) (st : ConversationState) :
    (∃ resp, (processQuery env query st).response = Except.ok resp) ∨
    (∃ e, (processQuery env query st).response = Except.error e ∧
      (processQuery env query st).state = clearContext st) := by
  simp only [processQuery]
  repeat' split
  all_goals
    first
    | exact Or.inl ⟨_, rfl⟩
    | exact Or.inr ⟨_, rfl, rfl⟩

/-- C3 (amended): a retrieval or generation failure propagates as the
turn's outcome, appends no turn to history and stores no context key, but
the final state is the input state with its context dictionary cleared:
the clear_context call at the start of every non-selection turn runs
before retrieval, so a pending disambiguation_options entry does not
survive a failing classification turn. -/
theorem failure_aborts_after_context_clear (env : Env) (query : String) (st : ConversationState) :
    match (processQuery env query st).response with
    | Except.error _ => (processQuery env query st).state = clearContext st
    | Except.ok _ => True := by
  rcases processQuery_response_state_cases env query st with ⟨resp, h⟩ | ⟨e, h, hstate⟩
  · rw [h]
    trivial
  · rw [h]
    exact hstate

/-- C3 counterexample: with options pending and a classification-intent
query, the context is cleared before retrieval runs, so after the
retrieval exception the pending disambiguation_options entry is gone —
refuting that a failing turn leaves the conversation state unchanged. -/
theorem pending_options_lost_on_failing_retrieval :
    ctxTruthy (getContextS stPend "disambiguation_options") ∧
    (processQuery envFail "rubber sheet" stPend).response =
      Except.error { msg := "vector store unavailable" } ∧
    (processQuery envFail "rubber sheet" stPend).state.currentContext = [] ∧
    getContextS (processQuery envFail "rubber sheet" stPend).state "disambiguation_options" = none ∧
    stPend.currentContext ≠ [] := by
  refine ⟨by decide, rfl, rfl, rfl, by decide⟩

/-- C9: every completed call of process_query appends exactly one (query,
response) pair to the turn history, on every branch alike (direct lookup,
summarization, no-result, disambiguation prompt, classification result,
valid selection and invalid selection), and a failing call appends none;
the history is never truncated. -/
theorem exactly_one_turn_appended (env : Env) (query : String) (st : ConversationState) :
    match (processQuery env query st).response with
    | Except.ok resp => (processQuery env query st).state.turnHistory =
        st.turnHistory ++ [{ userQuery := query, systemResponse := resp }]
    | Except.error _ => (processQuery env query st).state.turnHistory = st.turnHistory := by
  have hsel : ∀ pq, (handleDisambiguationSelection pq st).2.turnHistory = st.turnHistory := by
    intro pq
    rcases handleSel_state_cases pq st with h | h <;> rw [h] <;> rfl
  have hcases :
      (∃ resp, (processQuery env query st).response = Except.ok resp ∧
        (processQuery env query st).state.turnHistory =
          st.turnHistory ++ [{ userQuery := query, systemResponse := resp }]) ∨
      (∃ e, (processQuery env query st).response = Except.error e ∧
        (processQuery env query st).state.turnHistory = st.turnHistory) := by
    simp only [processQuery]
    repeat' split
    all_goals
      first
      | exact Or.inl ⟨_, rfl, by simp [addTurn, clearContext, setContextS, hsel]⟩
      | exact Or.inr ⟨_, rfl, rfl⟩
  rcases hcases with ⟨resp, h, hh⟩ | ⟨e, h, hh⟩
  · rw [h]
    exact hh
  · rw [h]
    exact hh

/-- C10: the context dictionary invariant — empty or exactly the single
key disambiguation_options — is preserved by every turn, and a completed
turn after which the stored options differ from the pending ones before
it can only have issued a disambiguation response. -/
theorem context_key_invariant (env : Env) (query : String) (st : ConversationState) :
    ((st.currentContext = [] ∨
        ∃ opts, st.currentContext = [("disambiguation_options", opts)]) →
      ((processQuery env query st).state.currentContext = [] ∨
        ∃ opts, (processQuery env query st).state.currentContext =
          [("disambiguation_options", opts)])) ∧
    (∀ resp opts, (processQuery env query st).response = Except.ok resp →
      getContextMap (processQuery env query st).state.currentContext "disambiguation_options" =
        some opts →
      getContextMap st.currentContext "disambiguation_options" ≠ some opts →
      resp.rtype = some "disambiguation") := by
  constructor
  · intro hinv
    rcases processQuery_context_cases env query st with h | h | ⟨resp, _, _, hctx⟩
    · exact Or.inl h
    · rw [h]; exact hinv
    · exact Or.inr ⟨resp.options, hctx⟩
  · intro resp opts hresp hafter hbefore
    rcases processQuery_context_cases env query st with h | h | ⟨resp2, hresp2, hrt2, hctx⟩
    · rw [h] at hafter
      simp [getContextMap] at hafter
    · rw [h] at hafter
      exact absurd hafter hbefore
    · have hr : resp = resp2 := by
        rw [hresp] at hresp2
        exact Except.ok.inj hresp2
      rw [hctx] at hafter
      rw [hr]
      exact hrt2

/-- C10 witness: a fresh session issuing a disambiguation ends with
exactly the single stored key, and the invariant theorem applied there
identifies the response as a disambiguation. -/
theorem context_key_invariant_witness :
    (processQuery envAmb "rubber sheet" stEmpty).state.currentContext =
      [("disambiguation_options", [dHigh, dNear])] ∧
    (generateDisambiguationPrompt [dHigh, dNear]).rtype = some "disambiguation" := by
  have hpq : parseNaturalLanguage envAmb.nlp "rubber sheet" =
      { intent := Intent.classification, text := some "rubber sheet" } := by decide
  have h1 : ¬ ((91 : Rat) / 100 < relevanceThreshold) := by
    norm_num [relevanceThreshold]
  have h2 : (91 : Rat) / 100 - 79 / 100 < disambiguationThreshold := by
    norm_num [disambiguationThreshold]
  have hpe : processQuery envAmb "rubber sheet" stEmpty =
      { response := Except.ok (generateDisambiguationPrompt [dHigh, dNear]),
        state := { stEmpty with
          currentContext := [("disambiguation_options", [dHigh, dNear])],
          turnHistory := [{ userQuery := "rubber sheet",
                            systemResponse := generateDisambiguationPrompt [dHigh, dNear] }] },
        retrievalCalled := true, generationCalled := false } := by
    simp only [processQuery]
    rw [hpq]
    simp [envAmb, ctxTruthy, getContextS, getContextMap, stEmpty, identifyAmbiguousCases,
      dHigh, dNear, h1, h2, addTurn, clearContext, setContextS, setContextMap]
  refine ⟨by rw [hpe], ?_⟩
  exact (context_key_invariant envAmb "rubber sheet" stEmpty).2
    (generateDisambiguationPrompt [dHigh, dNear]) [dHigh, dNear]
    (by rw [hpe]) (by rw [hpe]; rfl) (by decide)

end HSN
